import Mathlib

/-!
Verification of `oi_local.py`: a script that configures an external
conversational-AI interpreter, persists the conversation transcript to a
JSON file between runs, and wraps the blocking chat loop in a
try/except/finally block that logs crashes and always re-saves memory.

The script's observable behavior is embedded shallowly as transitions on a
`World` state holding the two files it touches (`ai_memory.json` and
`error_log.txt`), the interpreter's message list (`oi.messages`), and a
trace of side effects (console prints, file reads/writes, the user
acknowledgment prompt).  The external pieces are modelled as follows:

* Message records are opaque JSON-compatible values supplied by the
  interpreter library.  `Msg.record` is a value the Python `json` module
  can encode; `Msg.unserializable` is a value it cannot (for which
  `json.dump` raises `TypeError` after having streamed the serializable
  items that precede it to the already-truncated file).
* The contents of `ai_memory.json` are modelled symbolically by
  `FileData`: either the `json.dump` serialization of a message list
  (`jsonArray`, which `json.load` inverts), a truncated serialization left
  behind by a `json.dump` that raised partway (parsing it raises
  `JSONDecodeError`), or arbitrary malformed text (idem).
* `oi.chat()` is an opaque external call that mutates `oi.messages` and
  either returns or raises; its behavior is a parameter (`ChatOutcome`).
* A Python exception carries its traceback text and a flag saying whether
  it is an instance of `Exception` (as opposed to a `BaseException` such
  as `KeyboardInterrupt` or `SystemExit`, which `except Exception` does
  not catch).
-/

/-- An opaque message record of the interpreter's transcript.  `record`
is JSON-serializable; `unserializable` models a value the Python `json`
module cannot encode. -/
inductive Msg where
  | record (data : String)
  | unserializable (data : String)
deriving DecidableEq, Repr

/-- Whether the Python `json` module can encode this record. -/
def serializable : Msg → Bool
  | .record _ => true
  | .unserializable _ => false

/-- Symbolic contents of the memory file `ai_memory.json`. -/
inductive FileData where
  /-- The `json.dump(msgs, f, indent=4, ensure_ascii=False)` serialization
  of the message list `msgs`: a valid JSON array that `json.load` parses
  back to `msgs`. -/
  | jsonArray (msgs : List Msg)
  /-- A truncated serialization: `open(DB_PATH, "w")` truncated the file,
  then `json.dump` raised `TypeError` after streaming only the listed
  items.  Invalid JSON. -/
  | truncated (written : List Msg)
  /-- Any other malformed contents; `json.load` raises on them. -/
  | malformed
deriving DecidableEq, Repr

/-- A Python exception as seen by the wrapper: `isException` is true iff
it is an instance of `Exception` (so `except Exception` catches it);
`traceback` is the text `traceback.print_exc` emits for it. -/
structure PyExc where
  isException : Bool
  traceback : String
deriving DecidableEq, Repr

/-- The `json.JSONDecodeError` raised by `json.load` on malformed input.
It subclasses `ValueError`, hence `Exception`. -/
def jsonDecodeError : PyExc :=
  { isException := true, traceback := "json.decoder.JSONDecodeError: Expecting value" }

/-- The `TypeError` raised by `json.dump` on an unserializable object.
It subclasses `Exception`. -/
def typeError : PyExc :=
  { isException := true, traceback := "TypeError: Object is not JSON serializable" }

/-- One observable side effect of the script. -/
inductive Event where
  /-- Opened `ai_memory.json` for reading (`open(DB_PATH, "r")`). -/
  | readMemFile
  /-- `print(s)` to the console. -/
  | printLine (s : String)
  /-- Called the external blocking chat loop `oi.chat()`. -/
  | calledChat
  /-- `traceback.print_exc()` printed the traceback to the console. -/
  | printTraceback (tb : String)
  /-- Appended the given block to `error_log.txt`. -/
  | appendedErrorLog (block : String)
  /-- `input(s)` blocked on a user acknowledgment prompt. -/
  | promptedUser (s : String)
  /-- Opened `ai_memory.json` for writing (`open(DB_PATH, "w")`), which
  truncates it, starting a save. -/
  | saveInvoked
deriving DecidableEq, Repr

/-- The state the script acts on: the memory file (`none` when
`ai_memory.json` does not exist), the text of `error_log.txt`, the
interpreter's message list `oi.messages`, and the trace of side effects
performed so far. -/
structure World where
  memFile : Option FileData
  errorLogTxt : String
  messages : List Msg
  trace : List Event
deriving DecidableEq, Repr

/-- `DB_PATH = "ai_memory.json"` (line 12 of the script). -/
def DB_PATH : String := "ai_memory.json"

/-- Result of the external call `oi.chat()`: it either returns or raises,
and in both cases may have mutated `oi.messages`, whose value at that
moment is recorded. -/
inductive ChatOutcome where
  | returns (msgs : List Msg)
  | raises (e : PyExc) (msgs : List Msg)
deriving DecidableEq, Repr

/-- `json.load(f)` on the memory file's contents: inverts `json.dump` on
a well-formed serialization and raises `JSONDecodeError` otherwise. -/
def json_load : FileData → Except PyExc (List Msg)
  | .jsonArray msgs => .ok msgs
  | .truncated _ => .error jsonDecodeError
  | .malformed => .error jsonDecodeError

/-- The line `print(f"--- Контекст загружен ({len(oi.messages)} сообщений) ---")`. -/
def loadedLine (n : Nat) : String :=
  "--- Контекст загружен (" ++ toString n ++ " сообщений) ---"

/-- `load_memory` (lines 33–37): if `ai_memory.json` exists, open it,
parse it as JSON, assign the result to `oi.messages` and print the count;
otherwise do nothing.  A parse failure propagates (there is no handler
here), leaving `oi.messages` unassigned. -/
def load_memory (w : World) : Except (PyExc × World) World :=
  match w.memFile with
  | none => .ok w
  | some fd =>
    match json_load fd with
    | .error e => .error (e, { w with trace := w.trace ++ [.readMemFile] })
    | .ok msgs =>
      .ok { w with
        messages := msgs,
        trace := w.trace ++ [.readMemFile, .printLine (loadedLine msgs.length)] }

/-- The line `print("--- Контекст сохранен в ai_memory.json ---")`. -/
def savedLine : String := "--- Контекст сохранен в ai_memory.json ---"

/-- `save_memory` (lines 39–42): open `ai_memory.json` for writing
(truncating it), `json.dump(oi.messages, f, indent=4, ensure_ascii=False)`,
print a confirmation.  If some message is unserializable, `json.dump`
raises `TypeError` after streaming the serializable items that precede the
offending one, leaving the file truncated; the confirmation is not
printed and the exception propagates. -/
def save_memory (w : World) : Except (PyExc × World) World :=
  if w.messages.all serializable then
    .ok { w with
      memFile := some (.jsonArray w.messages),
      trace := w.trace ++ [.saveInvoked, .printLine savedLine] }
  else
    .error (typeError, { w with
      memFile := some (.truncated (w.messages.takeWhile serializable)),
      trace := w.trace ++ [.saveInvoked] })

/-- The 50-character `=` banner line `"=" * 50`. -/
def bannerLine : String := String.mk (List.replicate 50 '=')

/-- The line `print("Бот запущен. Введи команду...")`. -/
def startedLine : String := "Бот запущен. Введи команду..."

/-- One crash block of `error_log.txt`: the marker written by
`f.write("\n--- NEW CRASH ---\n")` followed by the traceback written by
`traceback.print_exc(file=f)`. -/
def crashBlock (tb : String) : String := "\n--- NEW CRASH ---\n" ++ tb

/-- The side effects of the `except Exception` handler (lines 51–61), in
source order: the three-line error banner, the console traceback, the
append of one crash block to `error_log.txt`, the banner line again with
the pointer to the log file, and the blocking acknowledgment prompt. -/
def crashHandlerEvents (tb : String) : List Event :=
  [ .printLine ("\n" ++ bannerLine),
    .printLine "ПРОИЗОШЛА ОШИБКА ПРИ РАБОТЕ ЧАТА:",
    .printLine bannerLine,
    .printTraceback tb,
    .appendedErrorLog (crashBlock tb),
    .printLine bannerLine,
    .printLine "Детали ошибки сохранены в файл error_log.txt",
    .promptedUser "Нажми Enter, чтобы закрыть..." ]

/-- Runs the `except Exception` handler on the world: appends one crash
block to `error_log.txt` and performs the handler's console/prompt
effects in order. -/
def crashHandler (tb : String) (w : World) : World :=
  { w with
    errorLogTxt := w.errorLogTxt ++ crashBlock tb,
    trace := w.trace ++ crashHandlerEvents tb }

/-- `start_with_logging` (lines 45–63): call `load_memory()` (outside the
`try`, so its failures propagate raw); then inside `try`, print the
start-up line and call `oi.chat()`.  An exception from the chat loop that
is an instance of `Exception` runs the crash handler; one that is not
skips it.  The `finally` clause calls `save_memory()` on every path that
entered the `try`; an exception raised by that save propagates (replacing
any in-flight exception, per Python `finally` semantics). -/
def start_with_logging (outcome : ChatOutcome) (w0 : World) :
    Except (PyExc × World) World :=
  match load_memory w0 with
  | .error ew => .error ew
  | .ok w1 =>
    match outcome with
    | .returns msgs =>
      save_memory { w1 with
        messages := msgs,
        trace := w1.trace ++ [.printLine startedLine, .calledChat] }
    | .raises e msgs =>
      let w2 : World := { w1 with
        messages := msgs,
        trace := w1.trace ++ [.printLine startedLine, .calledChat] }
      if e.isException then
        save_memory (crashHandler e.traceback w2)
      else
        match save_memory w2 with
        | .ok w3 => .error (e, w3)
        | .error ew => .error ew

/-- The world a run ends in, whether it returned or raised. -/
def resultWorld : Except (PyExc × World) World → World
  | .ok w => w
  | .error (_, w) => w

/-- The memory file's contents let `load_memory` succeed: the file is
absent or holds a well-formed serialization. -/
def loadable (w : World) : Bool :=
  match w.memFile with
  | none => true
  | some (.jsonArray _) => true
  | some _ => false

/-- Sample worlds used by the witnesses below. -/
def wNone : World := { memFile := none, errorLogTxt := "", messages := [], trace := [] }

/-- A world whose memory file holds a well-formed one-record array. -/
def wArr : World :=
  { memFile := some (.jsonArray [.record "m1"]),
    errorLogTxt := "old-log", messages := [], trace := [] }

/-- A world whose memory file holds malformed JSON. -/
def wBad : World :=
  { memFile := some .malformed, errorLogTxt := "", messages := [], trace := [] }

/-- Helper: `load_memory` on a well-formed memory file assigns the parsed
array to `oi.messages` and prints the count. -/
theorem load_memory_jsonArray (w : World) (arr : List Msg)
    (h : w.memFile = some (.jsonArray arr)) :
    load_memory w = .ok { w with
      messages := arr,
      trace := w.trace ++ [.readMemFile, .printLine (loadedLine arr.length)] } := by
  simp [load_memory, h, json_load]

/-- Helper: `save_memory` on an all-serializable message list writes its
serialization to the memory file and prints the confirmation. -/
theorem save_memory_ok (w : World) (h : w.messages.all serializable = true) :
    save_memory w = .ok { w with
      memFile := some (.jsonArray w.messages),
      trace := w.trace ++ [.saveInvoked, .printLine savedLine] } := by
  simp [save_memory, h]

/-- Claim C5: when `ai_memory.json` does not exist, `load_memory` returns
without raising and the world is unchanged: `oi.messages` keeps its prior
value and no file read (and no other effect) is performed. -/
theorem missing_file_load_noop (w0 : World) (h : w0.memFile = none) :
    load_memory w0 = .ok w0 := by
  simp [load_memory, h]

/-- Witness for C5 at the concrete world `wNone`. -/
theorem missing_file_load_noop_witness : load_memory wNone = .ok wNone :=
  missing_file_load_noop wNone rfl

/-- Claim C6: when `ai_memory.json` holds a valid JSON array of `N`
records, `load_memory` sets `oi.messages` to that array and prints the
loaded-context line reporting exactly `N` messages. -/
theorem load_valid_array_reports_count (w0 : World) (arr : List Msg)
    (h : w0.memFile = some (.jsonArray arr)) :
    load_memory w0 = .ok { w0 with
      messages := arr,
      trace := w0.trace ++ [.readMemFile, .printLine (loadedLine arr.length)] } := by
  simp [load_memory, h, json_load]

/-- Witness for C6 at the concrete world `wArr` (one record). -/
theorem load_valid_array_reports_count_witness :
    load_memory wArr = .ok { wArr with
      messages := [.record "m1"],
      trace := wArr.trace ++ [.readMemFile, .printLine (loadedLine 1)] } :=
  load_valid_array_reports_count wArr [.record "m1"] rfl

/-- Claim C4: a memory file with malformed JSON makes `load_memory`
raise, and `start_with_logging` does not catch it: whatever the chat loop
would have done, the run raises `JSONDecodeError`, the error log and the
memory file and `oi.messages` are untouched, and no crash block, prompt
or save happens — the only effect performed is the file read. -/
theorem malformed_memory_fatal (outcome : ChatOutcome) (w0 : World)
    (h : w0.memFile = some .malformed) :
    start_with_logging outcome w0 =
      .error (jsonDecodeError, { w0 with trace := w0.trace ++ [.readMemFile] }) := by
  simp [start_with_logging, load_memory, h, json_load]

/-- Witness for C4 at the concrete world `wBad`. -/
theorem malformed_memory_fatal_witness :
    start_with_logging (.returns []) wBad =
      .error (jsonDecodeError, { wBad with trace := wBad.trace ++ [.readMemFile] }) :=
  malformed_memory_fatal (.returns []) wBad rfl

/-- Claim C7: round-trip.  For any JSON-serializable array `X`, loading a
memory file that contains `X` sets the message list to `X`; saving then
writes exactly the serialization of `X` back, and loading the saved file
again yields a message list equal to `X`. -/
theorem save_load_round_trip (w0 : World) (X : List Msg)
    (hs : X.all serializable = true)
    (h : w0.memFile = some (.jsonArray X)) :
    ∃ w1 w2 w3,
      load_memory w0 = .ok w1 ∧
      save_memory w1 = .ok w2 ∧
      w2.memFile = some (.jsonArray X) ∧
      load_memory w2 = .ok w3 ∧
      w3.messages = X := by
  refine ⟨_, _, _, load_memory_jsonArray w0 X h, save_memory_ok _ hs, rfl,
    load_memory_jsonArray _ X rfl, rfl⟩

/-- Witness for C7 at the concrete world `wArr`. -/
theorem save_load_round_trip_witness :
    ∃ w1 w2 w3,
      load_memory wArr = .ok w1 ∧
      save_memory w1 = .ok w2 ∧
      w2.memFile = some (.jsonArray [.record "m1"]) ∧
      load_memory w2 = .ok w3 ∧
      w3.messages = [.record "m1"] :=
  save_load_round_trip wArr [.record "m1"] rfl rfl

/-- Claim C8: saving overwrites rather than merges.  Saving with message
list `A` and then saving with message list `B` leaves the memory file
containing exactly the serialization of `B`, with no trace of `A` —
regardless of `A` and of anything previously on disk. -/
theorem save_overwrites_previous (w : World) (A B : List Msg)
    (hB : B.all serializable = true) :
    ∃ w',
      save_memory
        { resultWorld (save_memory { w with messages := A }) with messages := B }
        = .ok w' ∧
      w'.memFile = some (.jsonArray B) := by
  exact ⟨_, save_memory_ok _ hB, rfl⟩

/-- Witness for C8: save `A = [record "a"]`, then `B = [record "b"]`. -/
theorem save_overwrites_previous_witness :
    ∃ w',
      save_memory
        { resultWorld (save_memory { wNone with messages := [.record "a"] }) with
          messages := [.record "b"] }
        = .ok w' ∧
      w'.memFile = some (.jsonArray [.record "b"]) :=
  save_overwrites_previous wNone [.record "a"] [.record "b"] rfl

/-- A world about to save a message list whose second record the `json`
module cannot encode, with a complete prior serialization on disk. -/
def wPartialSave : World :=
  { memFile := some (.jsonArray [.record "old"]),
    errorLogTxt := "",
    messages := [.record "new", .unserializable "oops"],
    trace := [] }

/-- Counterexample to claim C9: `save_memory` opens the file for writing
(truncating it) before `json.dump` streams the serialization, so a dump
that raises partway leaves the file truncated.  At `wPartialSave` the
save attempt leaves the memory file holding the truncated serialization
of only `[record "new"]` — which is neither the complete prior contents
(`jsonArray [record "old"]`) nor a complete serialization of the new
message list. -/
theorem save_atomicity_fails :
    (resultWorld (save_memory wPartialSave)).memFile
        = some (.truncated [.record "new"])
      ∧ (resultWorld (save_memory wPartialSave)).memFile ≠ wPartialSave.memFile
      ∧ (resultWorld (save_memory wPartialSave)).memFile
          ≠ some (.jsonArray wPartialSave.messages) := by
  refine ⟨rfl, ?_, ?_⟩ <;> decide

/-- Claim C9 as amended: a save that completes fully replaces the prior
contents of the memory file with the serialization of the current message
list; a save whose serialization fails partway leaves the file truncated
to the serialized items that preceded the failure, because the file is
truncated on open before serialization begins. -/
theorem save_replaces_or_truncates (w : World) :
    (resultWorld (save_memory w)).memFile =
      some (if w.messages.all serializable then FileData.jsonArray w.messages
            else FileData.truncated (w.messages.takeWhile serializable)) := by
  cases h : w.messages.all serializable <;> simp [save_memory, resultWorld, h]

/-- Helper: whichever way a save attempt ends, the `open(DB_PATH, "w")`
event is in the resulting trace. -/
theorem saveInvoked_mem_save (w : World) :
    Event.saveInvoked ∈ (resultWorld (save_memory w)).trace := by
  cases h : w.messages.all serializable <;> simp [save_memory, resultWorld, h]

/-- Helper: once the load step succeeds, every path through the wrapper
ends in the world produced by a `save_memory` call — the `finally` clause
runs on normal return, on a caught exception, and on an uncaught one. -/
theorem swl_result_is_save (outcome : ChatOutcome) (w0 : World)
    (hw : loadable w0 = true) :
    ∃ w, resultWorld (start_with_logging outcome w0)
      = resultWorld (save_memory w) := by
  obtain ⟨mf, elog, ms, tr⟩ := w0
  rcases mf with _ | (init | t | _)
  case some.truncated => simp [loadable] at hw
  case some.malformed => simp [loadable] at hw
  case none =>
    rcases outcome with msgs | ⟨e, msgs⟩
    · exact ⟨{ memFile := none, errorLogTxt := elog, messages := msgs,
               trace := tr ++ [.printLine startedLine, .calledChat] },
             congrArg resultWorld rfl⟩
    · cases hb : e.isException
      · cases hs : msgs.all serializable <;>
          exact ⟨{ memFile := none, errorLogTxt := elog, messages := msgs,
                   trace := tr ++ [.printLine startedLine, .calledChat] },
                 by simp [start_with_logging, load_memory, save_memory,
                      resultWorld, hb, hs]⟩
      · exact ⟨crashHandler e.traceback
                 { memFile := none, errorLogTxt := elog, messages := msgs,
                   trace := tr ++ [.printLine startedLine, .calledChat] },
               congrArg resultWorld
                 (by simp [start_with_logging, load_memory, hb])⟩
  case some.jsonArray =>
    rcases outcome with msgs | ⟨e, msgs⟩
    · exact ⟨{ memFile := some (.jsonArray init), errorLogTxt := elog,
               messages := msgs,
               trace := (tr ++ [.readMemFile, .printLine (loadedLine init.length)])
                 ++ [.printLine startedLine, .calledChat] },
             congrArg resultWorld rfl⟩
    · cases hb : e.isException
      · cases hs : msgs.all serializable <;>
          exact ⟨{ memFile := some (.jsonArray init), errorLogTxt := elog,
                   messages := msgs,
                   trace := (tr ++ [.readMemFile, .printLine (loadedLine init.length)])
                     ++ [.printLine startedLine, .calledChat] },
                 by simp [start_with_logging, load_memory, json_load, save_memory,
                      resultWorld, hb, hs]⟩
      · exact ⟨crashHandler e.traceback
                 { memFile := some (.jsonArray init), errorLogTxt := elog,
                   messages := msgs,
                   trace := (tr ++ [.readMemFile, .printLine (loadedLine init.length)])
                     ++ [.printLine startedLine, .calledChat] },
               congrArg resultWorld
                 (by simp [start_with_logging, load_memory, json_load, hb])⟩

/-- Claim C2: once the run reaches the chat-loop call, the save operation
is attempted on the way out of the wrapper whether `oi.chat()` returns
normally or raises — the `finally` clause opens the memory file for
writing on every such path. -/
theorem save_attempted_on_exit (outcome : ChatOutcome) (w0 : World)
    (hw : loadable w0 = true) :
    Event.saveInvoked ∈ (resultWorld (start_with_logging outcome w0)).trace := by
  obtain ⟨w, hres⟩ := swl_result_is_save outcome w0 hw
  rw [hres]
  exact saveInvoked_mem_save w

/-- Witness for C2 at a normal return on the concrete world `wNone`. -/
theorem save_attempted_on_exit_witness :
    Event.saveInvoked ∈
      (resultWorld (start_with_logging (.returns [.record "m"]) wNone)).trace :=
  save_attempted_on_exit (.returns [.record "m"]) wNone rfl

/-- Claim C1: when the chat loop raises an exception the wrapper catches
(an `Exception` instance) and the crash-time message list serializes, the
run returns normally with `error_log.txt` grown by exactly one crash
block — the `--- NEW CRASH ---` marker followed by that exception's
traceback, all prior contents unchanged — and the memory file rewritten
to the serialization of the message list as it stood at the crash. -/
theorem start_crash_appends_block_and_saves (e : PyExc)
    (he : e.isException = true)
    (msgs : List Msg) (hm : msgs.all serializable = true)
    (w0 : World) (hw : loadable w0 = true) :
    ∃ w', start_with_logging (.raises e msgs) w0 = .ok w'
      ∧ w'.errorLogTxt = w0.errorLogTxt ++ crashBlock e.traceback
      ∧ w'.memFile = some (.jsonArray msgs)
      ∧ w'.messages = msgs := by
  obtain ⟨mf, elog, ms, tr⟩ := w0
  rcases mf with _ | (init | t | _)
  case some.truncated => simp [loadable] at hw
  case some.malformed => simp [loadable] at hw
  case none =>
    refine ⟨{ memFile := some (.jsonArray msgs),
              errorLogTxt := elog ++ crashBlock e.traceback,
              messages := msgs,
              trace := ((tr ++ [.printLine startedLine, .calledChat])
                ++ crashHandlerEvents e.traceback)
                ++ [.saveInvoked, .printLine savedLine] },
            ?_, rfl, rfl, rfl⟩
    simp [start_with_logging, load_memory, save_memory, crashHandler, he, hm]
  case some.jsonArray =>
    refine ⟨{ memFile := some (.jsonArray msgs),
              errorLogTxt := elog ++ crashBlock e.traceback,
              messages := msgs,
              trace := (((tr ++ [.readMemFile, .printLine (loadedLine init.length)])
                ++ [.printLine startedLine, .calledChat])
                ++ crashHandlerEvents e.traceback)
                ++ [.saveInvoked, .printLine savedLine] },
            ?_, rfl, rfl, rfl⟩
    simp [start_with_logging, load_memory, json_load, save_memory, crashHandler,
      he, hm]

/-- Witness for C1: a caught crash with traceback `"tb"` on `wArr`. -/
theorem start_crash_appends_block_and_saves_witness :
    ∃ w', start_with_logging
        (.raises { isException := true, traceback := "tb" } [.record "m"]) wArr
        = .ok w'
      ∧ w'.errorLogTxt = wArr.errorLogTxt ++ crashBlock "tb"
      ∧ w'.memFile = some (.jsonArray [.record "m"])
      ∧ w'.messages = [.record "m"] :=
  start_crash_appends_block_and_saves { isException := true, traceback := "tb" }
    rfl [.record "m"] rfl wArr rfl

/-- Claim C3: whenever the chat loop raises an `Exception` instance, the
wrapper performs — in source order — the delimited error banner, the
console traceback, the append of the marked crash block to
`error_log.txt`, the banner again, and the blocking acknowledgment
prompt (`crashHandlerEvents`), all before the save step starts. -/
theorem crash_handler_event_order (e : PyExc) (he : e.isException = true)
    (msgs : List Msg) (w0 : World) (hw : loadable w0 = true) :
    ∃ p s, (resultWorld (start_with_logging (.raises e msgs) w0)).trace
      = p ++ (crashHandlerEvents e.traceback ++ Event.saveInvoked :: s) := by
  obtain ⟨mf, elog, ms, tr⟩ := w0
  rcases mf with _ | (init | t | _)
  case some.truncated => simp [loadable] at hw
  case some.malformed => simp [loadable] at hw
  case none =>
    cases hs : msgs.all serializable
    · refine ⟨tr ++ [.printLine startedLine, .calledChat], [], ?_⟩
      simp [start_with_logging, load_memory, save_memory, crashHandler,
        resultWorld, he, hs]
    · refine ⟨tr ++ [.printLine startedLine, .calledChat],
        [.printLine savedLine], ?_⟩
      simp [start_with_logging, load_memory, save_memory, crashHandler,
        resultWorld, he, hs]
  case some.jsonArray =>
    cases hs : msgs.all serializable
    · refine ⟨tr ++ [.readMemFile, .printLine (loadedLine init.length),
        .printLine startedLine, .calledChat], [], ?_⟩
      simp [start_with_logging, load_memory, json_load, save_memory,
        crashHandler, resultWorld, he, hs]
    · refine ⟨tr ++ [.readMemFile, .printLine (loadedLine init.length),
        .printLine startedLine, .calledChat], [.printLine savedLine], ?_⟩
      simp [start_with_logging, load_memory, json_load, save_memory,
        crashHandler, resultWorld, he, hs]

/-- Witness for C3: a caught crash with traceback `"tb"` on `wNone`. -/
theorem crash_handler_event_order_witness :
    ∃ p s, (resultWorld (start_with_logging
        (.raises { isException := true, traceback := "tb" } []) wNone)).trace
      = p ++ (crashHandlerEvents "tb" ++ Event.saveInvoked :: s) :=
  crash_handler_event_order { isException := true, traceback := "tb" } rfl []
    wNone rfl

/-- The effects `load_memory` performs for each possible state of the
memory file: nothing when it is absent, a read plus the loaded-count line
when it parses, and a bare read when parsing fails. -/
def loadEvents : Option FileData → List Event
  | none => []
  | some (.jsonArray arr) => [.readMemFile, .printLine (loadedLine arr.length)]
  | some _ => [.readMemFile]

/-- Claim C10: an exception that is not an `Exception` instance (e.g.
`KeyboardInterrupt`, `SystemExit`) skips the crash handler entirely — the
error log is untouched and the only events after the chat call are the
save's — yet the `finally` clause still saves before the exception
propagates out of the wrapper. -/
theorem base_exception_skips_handler_still_saves (e : PyExc)
    (he : e.isException = false)
    (msgs : List Msg) (hm : msgs.all serializable = true)
    (w0 : World) (hw : loadable w0 = true) :
    ∃ w', start_with_logging (.raises e msgs) w0 = .error (e, w')
      ∧ w'.errorLogTxt = w0.errorLogTxt
      ∧ w'.memFile = some (.jsonArray msgs)
      ∧ w'.trace = w0.trace ++ loadEvents w0.memFile
          ++ [.printLine startedLine, .calledChat, .saveInvoked,
              .printLine savedLine] := by
  obtain ⟨mf, elog, ms, tr⟩ := w0
  rcases mf with _ | (init | t | _)
  case some.truncated => simp [loadable] at hw
  case some.malformed => simp [loadable] at hw
  case none =>
    refine ⟨{ memFile := some (.jsonArray msgs),
              errorLogTxt := elog,
              messages := msgs,
              trace := (tr ++ [.printLine startedLine, .calledChat])
                ++ [.saveInvoked, .printLine savedLine] },
            ?_, rfl, rfl, ?_⟩
    · simp [start_with_logging, load_memory, save_memory, he, hm]
    · simp [loadEvents]
  case some.jsonArray =>
    refine ⟨{ memFile := some (.jsonArray msgs),
              errorLogTxt := elog,
              messages := msgs,
              trace := ((tr ++ [.readMemFile, .printLine (loadedLine init.length)])
                ++ [.printLine startedLine, .calledChat])
                ++ [.saveInvoked, .printLine savedLine] },
            ?_, rfl, rfl, ?_⟩
    · simp [start_with_logging, load_memory, json_load, save_memory, he, hm]
    · simp [loadEvents]

/-- Witness for C10: an uncaught `KeyboardInterrupt`-like exception on
`wNone` with one serializable crash-time record. -/
theorem base_exception_skips_handler_still_saves_witness :
    ∃ w', start_with_logging
        (.raises { isException := false, traceback := "KeyboardInterrupt" }
          [.record "m"]) wNone
        = .error ({ isException := false, traceback := "KeyboardInterrupt" }, w')
      ∧ w'.errorLogTxt = wNone.errorLogTxt
      ∧ w'.memFile = some (.jsonArray [.record "m"])
      ∧ w'.trace = wNone.trace ++ loadEvents wNone.memFile
          ++ [.printLine startedLine, .calledChat, .saveInvoked,
              .printLine savedLine] :=
  base_exception_skips_handler_still_saves
    { isException := false, traceback := "KeyboardInterrupt" } rfl
    [.record "m"] rfl wNone rfl
